import Mathlib

set_option autoImplicit false

/-!
Verification of the Runner Cycle Coach core.

Shallow embedding of `src/Runner_Cycle_Coach.py`: the CSV normalizer
(`parse_file`), the metrics engine (`calculate_metrics`) and the feedback
rules (`generate_coach_feedback`), together with proofs of the spec claims.

Modelling decisions:
* A CSV cell as produced by `pandas.read_csv` is either a string, a number,
  or missing (`NaN`), so a raw cell is `Option Cell`.
* A raw table carries its column-name list and its rows as association
  lists from column name to cell, mirroring a `DataFrame`.
* `pandas.to_datetime(·, errors=coerce)` is an external library parser;
  the embedding is parametric in an element-level parser
  `pdt : Cell → Option ℚ` (`none` = `NaT`), applied cell-wise with
  `NaN ↦ NaT`.
* `pandas.to_numeric(·, errors=coerce)` is embedded concretely: numbers
  pass through, decimal-literal strings parse, everything else coerces to
  missing.
* A pandas `KeyError` (missing column access, `dropna` on a missing subset
  column) and an unreadable file are the exceptions of the `try:` block;
  the block is embedded as `Except ParseErr`, and `parse_file` is the
  `try/except` boundary returning a surfaced error plus a result table.
* Float results of the metrics engine that can be non-finite
  (`NaN`/`inf`: means of empty data, division by a zero mean) are embedded
  as `Option ℚ` with `none` for a non-finite value; Python comparisons
  `NaN < x`, `NaN > x` are `False`, matching the `none` branches below.
-/

namespace CycleCoach

/-- A non-missing CSV cell: a string or a number (floats idealised as ℚ). -/
inductive Cell where
  | str (s : String)
  | num (q : ℚ)
deriving DecidableEq

/-- A raw table as loaded by `pd.read_csv`: column names plus rows given as
association lists from column name to possibly-missing cell. -/
structure RawTable where
  cols : List String
  rows : List (List (String × Option Cell))
deriving DecidableEq

/-- Cell of a row at a column; a key absent from the row reads as missing. -/
def getCell (r : List (String × Option Cell)) (c : String) : Option Cell :=
  match r.lookup c with
  | some v => v
  | none => none

/-- The column `c` of the table, as the list of its cells in row order
(`df_raw[c]`). -/
def colVals (t : RawTable) (c : String) : List (Option Cell) :=
  t.rows.map (fun r => getCell r c)

/-- Boolean prefix test on character lists. -/
def chPref : List Char → List Char → Bool
  | [], _ => true
  | _ :: _, [] => false
  | a :: as, b :: bs => a == b && chPref as bs

/-- Boolean substring test on character lists: some suffix of the second
list starts with the first list. -/
def chSub (p : List Char) : List Char → Bool
  | [] => p.isEmpty
  | c :: cs => chPref p (c :: cs) || chSub p cs

/-- The Python substring containment test `pat in s` on strings. -/
def strContains (s pat : String) : Bool :=
  chSub pat.toList s.toList

/-- First non-missing value of a column (`series.dropna().iloc[0]`),
or `none` when every value is missing. -/
def firstNonNull (xs : List (Option Cell)) : Option Cell :=
  (xs.filterMap id).head?

/-- The probe value of the shift detector: the first non-missing cell of
the `GOTOES_CSV` column, or the empty string when there is none
(`... .iloc[0] if not ... .empty else ""`). -/
def shiftSample (t : RawTable) : Cell :=
  match firstNonNull (colVals t "GOTOES_CSV") with
  | some c => c
  | none => Cell.str ""

/-- Shift detection (`is_shifted` in `parse_file`): the `GOTOES_CSV`
column exists, and the probe value is a string containing `"202"` or
`"T"`. -/
def is_shifted (t : RawTable) : Bool :=
  if "GOTOES_CSV" ∈ t.cols then
    match shiftSample t with
    | Cell.str s => strContains s "202" || strContains s "T"
    | Cell.num _ => false
  else false

/-- Value of a digit string, most significant first. -/
def digitsVal (ds : List Char) : ℕ :=
  ds.foldl (fun a c => 10 * a + (c.toNat - '0'.toNat)) 0

/-- Embedding of `pd.to_numeric(·, errors=coerce)` on one cell: numbers pass through,
decimal-literal strings (optional sign, digits, optional fraction) parse,
anything else — including a missing cell — coerces to missing. -/
def to_numeric (c : Option Cell) : Option ℚ :=
  match c with
  | some (Cell.num q) => some q
  | some (Cell.str s) =>
    let (sgn, body) : ℚ × List Char :=
      match s.toList with
      | '-' :: rest => (-1, rest)
      | l => (1, l)
    match body.splitOn '.' with
    | [intPart] =>
      if !intPart.isEmpty && intPart.all (·.isDigit) then
        some (sgn * (digitsVal intPart : ℚ))
      else none
    | [intPart, fracPart] =>
      if !intPart.isEmpty && !fracPart.isEmpty &&
          intPart.all (·.isDigit) && fracPart.all (·.isDigit) then
        some (sgn * ((digitsVal intPart : ℚ) +
          (digitsVal fracPart : ℚ) / (10 ^ fracPart.length : ℚ)))
      else none
    | _ => none
  | none => none

/-- One row of `df_clean`: timestamp already parsed to a date-time
(idealised as ℚ, `none` = `NaT`); the other columns hold whatever cell the
branch assigned (raw cells in the standard branch, numbers or missing in
the shifted branch). -/
structure CleanRow where
  timestamp : Option ℚ
  heart_rate : Option Cell
  cadence : Option Cell
  power : Option Cell
deriving DecidableEq

/-- The cleaned table `df_clean` together with which of its four columns were actually
created (a pandas DataFrame only has the columns that were assigned). -/
structure CleanTable where
  hasTimestamp : Bool
  hasHeartRate : Bool
  hasCadence : Bool
  hasPower : Bool
  rows : List CleanRow
deriving DecidableEq

/-- Exceptions of the `try:` block of `parse_file`: an unreadable file at
`pd.read_csv`, or a pandas `KeyError` on a missing column. -/
inductive ParseErr where
  | unreadable
  | keyError (c : String)
deriving DecidableEq

/-- The shifted (Layout B) branch: `GOTOES_CSV` is parsed as the
timestamp, `altitude`/`heart_rate`/`speed` are numerically coerced into
`heart_rate`/`cadence`/`power`. Accessing a missing source column raises
`KeyError`. `pdt` is the external date-time parser. -/
def shiftedBranch (pdt : Cell → Option ℚ) (t : RawTable) :
    Except ParseErr CleanTable :=
  if "GOTOES_CSV" ∉ t.cols then Except.error (ParseErr.keyError "GOTOES_CSV")
  else if "altitude" ∉ t.cols then Except.error (ParseErr.keyError "altitude")
  else if "heart_rate" ∉ t.cols then Except.error (ParseErr.keyError "heart_rate")
  else if "speed" ∉ t.cols then Except.error (ParseErr.keyError "speed")
  else Except.ok
    { hasTimestamp := true, hasHeartRate := true
      hasCadence := true, hasPower := true
      rows := t.rows.map (fun r =>
        { timestamp := (getCell r "GOTOES_CSV").bind pdt
          heart_rate := (to_numeric (getCell r "altitude")).map Cell.num
          cadence := (to_numeric (getCell r "heart_rate")).map Cell.num
          power := (to_numeric (getCell r "speed")).map Cell.num }) }

/-- The standard (Layout A) branch: if a `power` column exists, each of the
four standard columns present in the raw table is copied as-is, and the
copied `timestamp` column (if any) is then date-parsed; otherwise
`df_clean` stays an empty, column-less DataFrame. -/
def standardBranch (pdt : Cell → Option ℚ) (t : RawTable) : CleanTable :=
  if "power" ∈ t.cols then
    { hasTimestamp := decide ("timestamp" ∈ t.cols)
      hasHeartRate := decide ("heart_rate" ∈ t.cols)
      hasCadence := decide ("cadence" ∈ t.cols)
      hasPower := true
      rows := t.rows.map (fun r =>
        { timestamp :=
            if "timestamp" ∈ t.cols then (getCell r "timestamp").bind pdt
            else none
          heart_rate :=
            if "heart_rate" ∈ t.cols then getCell r "heart_rate" else none
          cadence :=
            if "cadence" ∈ t.cols then getCell r "cadence" else none
          power := getCell r "power" }) }
  else
    { hasTimestamp := false, hasHeartRate := false
      hasCadence := false, hasPower := false, rows := [] }

/-- The branch selection of `parse_file`: the shifted remapping when
detection fired, the standard mapping otherwise. -/
def afterDetect (pdt : Cell → Option ℚ) (t : RawTable) :
    Except ParseErr CleanTable :=
  if is_shifted t then shiftedBranch pdt t
  else Except.ok (standardBranch pdt t)

/-- Embedding of `df_clean.dropna(subset=[timestamp, power])`: raises `KeyError` when
a subset column is missing from `df_clean`, otherwise keeps exactly the
rows whose timestamp and power are both present, in order. -/
def dropnaTsPower (ct : CleanTable) : Except ParseErr CleanTable :=
  if ct.hasTimestamp then
    if ct.hasPower then
      Except.ok { ct with
        rows := ct.rows.filter (fun r => r.timestamp.isSome && r.power.isSome) }
    else Except.error (ParseErr.keyError "power")
  else Except.error (ParseErr.keyError "timestamp")

/-- The body of the `try:` block of `parse_file`. The input is `none` for a
file `pd.read_csv` cannot read at all (its exception), otherwise the loaded
raw table. -/
def parse_body (pdt : Cell → Option ℚ) (inp : Option RawTable) :
    Except ParseErr CleanTable :=
  match inp with
  | none => Except.error ParseErr.unreadable
  | some t =>
    match afterDetect pdt t with
    | Except.error e => Except.error e
    | Except.ok ct => dropnaTsPower ct

/-- The function `parse_file`: the `try/except` boundary. On success the cleaned rows
are returned with no error; on any exception of the body the error is
surfaced (`st.error`) and an empty table is returned. -/
def parse_file (pdt : Cell → Option ℚ) (inp : Option RawTable) :
    Option ParseErr × List CleanRow :=
  match parse_body pdt inp with
  | Except.ok ct => (none, ct.rows)
  | Except.error e => (some e, [])

/-- One normalized ride sample (the RideSample of the spec / one row of the
DataFrame handed to `calculate_metrics`): timestamp and power present,
heart rate and cadence possibly missing. -/
structure RideSample where
  timestamp : ℚ
  heart_rate : Option ℚ
  cadence : Option ℚ
  power : ℚ
deriving DecidableEq

/-- The active-pedaling filter `df[df[power] > 10]`: keep samples with power above 10. -/
def activeOf (df : List RideSample) : List RideSample :=
  df.filter (fun s => decide (10 < s.power))

/-- Embedding of `series.mean()` for an all-present numeric column. -/
def meanQ (xs : List ℚ) : ℚ :=
  xs.sum / (xs.length : ℚ)

/-- Embedding of `series.mean()` with pandas NaN-skipping: the mean of the present
values, `none` (float `NaN`) when every value is missing. -/
def nanmean (xs : List (Option ℚ)) : Option ℚ :=
  let vs := xs.filterMap id
  if vs.isEmpty then none else some (vs.sum / (vs.length : ℚ))

/-- The efficiency factor `avg_pwr / avg_hr if avg_hr > 0 else 0`; a `NaN` average heart
rate fails the `> 0` test in Python, giving `0`. -/
def efOf (ap : ℚ) (ah : Option ℚ) : ℚ :=
  match ah with
  | some h => if 0 < h then ap / h else 0
  | none => 0

/-- The decoupling computation of `calculate_metrics`: split the active
samples at `len(active) // 2`, compare the efficiency factors of the two
halves; `0` when either half is empty. `none` stands for a non-finite
float result (a `NaN` heart-rate mean, or division by a zero mean where
the floats produce `inf`/`NaN`). -/
def decouplingOf (active : List RideSample) : Option ℚ :=
  let mid := active.length / 2
  let h1 := active.take mid
  let h2 := active.drop mid
  if 0 < h1.length ∧ 0 < h2.length then
    match nanmean (h1.map (fun s => s.heart_rate)),
          nanmean (h2.map (fun s => s.heart_rate)) with
    | some a, some b =>
      if a = 0 ∨ b = 0 then none
      else
        let ef1 := meanQ (h1.map (fun s => s.power)) / a
        let ef2 := meanQ (h2.map (fun s => s.power)) / b
        if ef1 = 0 then none else some ((ef1 - ef2) / ef1 * 100)
    | _, _ => none
  else some 0

/-- The metrics record of `calculate_metrics`. `norm_pwr_sq` stores the
radicand of the normalized-power proxy (the proxy itself is
`Real.sqrt norm_pwr_sq`; the square root is kept outside the record so the
record stays an exactly computable value). `avg_hr`, `avg_cad` and
`decoupling` are `none` when the float computation yields `NaN`. -/
structure RideMetrics where
  duration : ℚ
  avg_pwr : ℚ
  norm_pwr_sq : ℚ
  avg_hr : Option ℚ
  avg_cad : Option ℚ
  ef : ℚ
  decoupling : Option ℚ
deriving DecidableEq

/-- The function `calculate_metrics`: `None` when no active sample remains, otherwise
the summary record. Duration counts all rows, every average only the
active ones. -/
def calculate_metrics (df : List RideSample) : Option RideMetrics :=
  let active := activeOf df
  if active.isEmpty then none
  else some
    { duration := (df.length : ℚ) / 60
      avg_pwr := meanQ (active.map (fun s => s.power))
      norm_pwr_sq := meanQ (active.map (fun s => s.power ^ 2))
      avg_hr := nanmean (active.map (fun s => s.heart_rate))
      avg_cad := nanmean (active.map (fun s => s.cadence))
      ef := efOf (meanQ (active.map (fun s => s.power)))
        (nanmean (active.map (fun s => s.heart_rate)))
      decoupling := decouplingOf active }

/-- Feedback messages, abstracted to their category (the Python strings
also interpolate the decoupling value into the drift-alert text; the
categories are what the claims are about). -/
inductive Msg where
  | recoveryRide
  | sweetSpotZ2
  | highZ2
  | intensityAlert
  | excellentEfficiency
  | goodEfficiency
  | driftAlert
  | grindWarning
  | goodCadence
deriving DecidableEq

/-- The power `if/elif` chain of `generate_coach_feedback`. -/
def powerMsgs (p : ℚ) : List Msg :=
  if p < 115 then [Msg.recoveryRide]
  else if 125 ≤ p ∧ p ≤ 140 then [Msg.sweetSpotZ2]
  else if 140 < p ∧ p ≤ 155 then [Msg.highZ2]
  else if 160 < p then [Msg.intensityAlert]
  else []

/-- The decoupling `if/elif/else` chain; a `NaN` decoupling fails both
`< 3` and `< 5` in Python and falls into the drift-alert `else`. -/
def decouplingMsgs (d : Option ℚ) : List Msg :=
  match d with
  | some x =>
    if x < 3 then [Msg.excellentEfficiency]
    else if x < 5 then [Msg.goodEfficiency]
    else [Msg.driftAlert]
  | none => [Msg.driftAlert]

/-- The cadence `if/elif` chain; a `NaN` cadence fails both comparisons
and produces nothing. -/
def cadenceMsgs (c : Option ℚ) : List Msg :=
  match c with
  | some x =>
    if x < 85 then [Msg.grindWarning]
    else if 90 < x then [Msg.goodCadence]
    else []
  | none => []

/-- The function `generate_coach_feedback`: power check, then decoupling check, then
cadence check, appended in that order. -/
def generate_coach_feedback (m : RideMetrics) : List Msg :=
  powerMsgs m.avg_pwr ++ decouplingMsgs m.decoupling ++ cadenceMsgs m.avg_cad

/-- Messages of the decoupling category. -/
def isDecouplingMsg : Msg → Bool
  | Msg.excellentEfficiency => true
  | Msg.goodEfficiency => true
  | Msg.driftAlert => true
  | _ => false

/-- Messages of the power category. -/
def isPowerMsg : Msg → Bool
  | Msg.recoveryRide => true
  | Msg.sweetSpotZ2 => true
  | Msg.highZ2 => true
  | Msg.intensityAlert => true
  | _ => false

/-- Messages of the cadence category. -/
def isCadenceMsg : Msg → Bool
  | Msg.grindWarning => true
  | Msg.goodCadence => true
  | _ => false

/-! Concrete data used by counterexamples and witnesses. -/

/-- A concrete instance of the external date-time parser: it parses the
one ISO timestamp string the example tables use and nothing else. -/
def pdtEx : Cell → Option ℚ
  | Cell.str s => if s = "2023-01-01T00:00:00" then some 0 else none
  | Cell.num _ => none

/-- A standard-layout table whose single row has a valid timestamp and a
non-numeric string in the `power` column. -/
def exTable : RawTable :=
  { cols := ["timestamp", "power"]
    rows := [[("timestamp", some (Cell.str "2023-01-01T00:00:00")),
              ("power", some (Cell.str "abc"))]] }

/-- A standard-layout table with two rows, the second missing its power
cell. -/
def wTable : RawTable :=
  { cols := ["timestamp", "power"]
    rows := [[("timestamp", some (Cell.str "2023-01-01T00:00:00")),
              ("power", some (Cell.num 150))],
             [("timestamp", some (Cell.str "2023-01-01T00:00:00")),
              ("power", none)]] }

/-- A ride with every sample below the active-power threshold. -/
def w3df : List RideSample :=
  [{ timestamp := 0, heart_rate := none, cadence := none, power := 0 }]

/-- A ride with one active and one inactive sample, heart rate and cadence
present on the active one. -/
def w4df : List RideSample :=
  [{ timestamp := 0, heart_rate := some 100, cadence := some 95, power := 150 },
   { timestamp := 1, heart_rate := some 100, cadence := some 95, power := 5 }]

/-- A perfectly steady two-sample ride: constant power 150 and heart
rate 100. -/
def w7df : List RideSample :=
  [{ timestamp := 0, heart_rate := some 100, cadence := none, power := 150 },
   { timestamp := 1, heart_rate := some 100, cadence := none, power := 150 }]

/-- A metrics record with decoupling 4, for exercising the decoupling
rules. -/
def wm5 : RideMetrics :=
  { duration := 2, avg_pwr := 150, norm_pwr_sq := 22500
    avg_hr := some 140, avg_cad := some 80, ef := 15 / 14, decoupling := some 4 }

/-- The metrics record of the feedback example: average power 130,
decoupling 2, average cadence 95. -/
def wm8 : RideMetrics :=
  { duration := 2, avg_pwr := 130, norm_pwr_sq := 16900
    avg_hr := some 120, avg_cad := some 95, ef := 13 / 12, decoupling := some 2 }

/-- The worked example of the spec: 120 one-per-second samples, the first 60
with power 150 and heart rate 140, the last 60 with power 150 and heart
rate 150. -/
def c6Samples : List RideSample :=
  (List.range 60).map (fun (i : ℕ) =>
    { timestamp := (i : ℚ), heart_rate := some 140, cadence := none, power := 150 }) ++
  (List.range 60).map (fun (i : ℕ) =>
    { timestamp := ((60 + i : ℕ) : ℚ), heart_rate := some 150, cadence := none, power := 150 })

/-! ## Lemmas -/

theorem chPref_iff (p l : List Char) : chPref p l = true ↔ p <+: l := by
  induction p generalizing l with
  | nil => simp [chPref]
  | cons a as ih =>
    cases l with
    | nil => simp [chPref]
    | cons b bs => simp [chPref, ih, List.cons_prefix_cons]

theorem chSub_iff (p l : List Char) : chSub p l = true ↔ p <:+: l := by
  induction l with
  | nil => simp [chSub, List.infix_nil]
  | cons c cs ih => simp [chSub, chPref_iff, ih, List.infix_cons_iff]

theorem strContains_iff (s pat : String) :
    strContains s pat = true ↔ pat.toList <:+: s.toList :=
  chSub_iff _ _

/-! ## Claims -/

/-- C1: for every raw table, the Layout-B (shifted) column remapping is
applied iff the marker column `GOTOES_CSV` exists and its first non-empty
value is a string containing the substring `"202"` or the letter `"T"`;
in every other case the branch taken is the standard Layout-A one. -/
theorem C1_layout_detection (t : RawTable) :
    (is_shifted t = true ↔
      "GOTOES_CSV" ∈ t.cols ∧
        ∃ s : String,
          firstNonNull (colVals t "GOTOES_CSV") = some (Cell.str s) ∧
            ("202".toList <:+: s.toList ∨ "T".toList <:+: s.toList)) ∧
    ∀ pdt : Cell → Option ℚ,
      parse_body pdt (some t) =
        match (if is_shifted t then shiftedBranch pdt t
               else Except.ok (standardBranch pdt t)) with
        | Except.error e => Except.error e
        | Except.ok ct => dropnaTsPower ct := by
  constructor
  · unfold is_shifted shiftSample
    by_cases hmem : "GOTOES_CSV" ∈ t.cols
    · rcases hfn : firstNonNull (colVals t "GOTOES_CSV") with _ | c
      · simp only [if_pos hmem, hfn]
        constructor
        · intro h; exact absurd h (by decide)
        · rintro ⟨-, s, hs, -⟩; cases hs
      · cases c with
        | str s =>
          simp only [if_pos hmem, hfn]
          simp [strContains_iff, hmem]
        | num q =>
          simp only [if_pos hmem, hfn]
          simp [hmem]
    · simp [hmem]
  · intro pdt
    rfl

/-- C9: the parse boundary never lets an exception escape: whenever the
body of the `try:` block fails — in particular on a structurally
unreadable file — the error is surfaced to the caller and an empty result
is returned. -/
theorem C9_parse_boundary :
    (∀ (pdt : Cell → Option ℚ) (inp : Option RawTable) (e : ParseErr),
        parse_body pdt inp = Except.error e →
        parse_file pdt inp = (some e, [])) ∧
    (∀ pdt : Cell → Option ℚ,
        parse_body pdt none = Except.error ParseErr.unreadable) := by
  constructor
  · intro pdt inp e h
    simp [parse_file, h]
  · intro pdt
    rfl

/-- Witness for C9: an unreadable file yields the surfaced error and an
empty table. -/
theorem C9_parse_boundary_witness :
    parse_file pdtEx none = (some ParseErr.unreadable, []) :=
  C9_parse_boundary.1 pdtEx none ParseErr.unreadable rfl

theorem filter_map_swap {α β : Type} (f : α → β) (p : β → Bool) (l : List α) :
    (l.map f).filter p = (l.filter (fun a => p (f a))).map f := by
  induction l with
  | nil => rfl
  | cons a as ih =>
    by_cases h : p (f a) = true <;>
      simp [List.filter_cons, h, ih]

/-- C2 (counterexample): in the standard layout the `power` column is
copied without numeric parsing, so a row whose power cell is the
non-numeric string `"abc"` is retained by `parse_file`, while the claim —
unparseable values become absent and absent-power rows are dropped —
predicts that it is dropped. The table satisfies the hypotheses of the claim
(power column, timestamp column, standard layout, valid timestamps). -/
theorem C2_counterexample :
    "power" ∈ exTable.cols ∧ "timestamp" ∈ exTable.cols ∧
    is_shifted exTable = false ∧
    (∀ r ∈ exTable.rows, ((getCell r "timestamp").bind pdtEx).isSome = true) ∧
    (parse_file pdtEx (some exTable)).2.length = 1 ∧
    (exTable.rows.filter
      (fun r => (to_numeric (getCell r "power")).isSome)).length = 0 := by
  decide

/-- C2 (amended): for every raw table in the standard layout with a
`power` and a `timestamp` column and valid timestamps, `parse_file`
surfaces no error, returns the rows in their original order, and drops
exactly those rows whose raw power cell is missing; the power, heart-rate
and cadence cells are copied as-is (not numerically re-parsed), while the
timestamp is date-parsed. -/
theorem C2_standard_normalize (pdt : Cell → Option ℚ) (t : RawTable)
    (hp : "power" ∈ t.cols) (ht : "timestamp" ∈ t.cols)
    (hs : is_shifted t = false)
    (hv : ∀ r ∈ t.rows, ((getCell r "timestamp").bind pdt).isSome = true) :
    (parse_file pdt (some t)).1 = none ∧
    (parse_file pdt (some t)).2 =
      (t.rows.filter (fun r => (getCell r "power").isSome)).map (fun r =>
        { timestamp := (getCell r "timestamp").bind pdt
          heart_rate := if "heart_rate" ∈ t.cols then getCell r "heart_rate" else none
          cadence := if "cadence" ∈ t.cols then getCell r "cadence" else none
          power := getCell r "power" }) := by
  have hbody : parse_body pdt (some t) =
      dropnaTsPower (standardBranch pdt t) := by
    simp [parse_body, afterDetect, hs]
  have hrows :
      (standardBranch pdt t).rows.filter
          (fun r => r.timestamp.isSome && r.power.isSome) =
        (t.rows.filter (fun r => (getCell r "power").isSome)).map (fun r =>
          { timestamp := (getCell r "timestamp").bind pdt
            heart_rate := if "heart_rate" ∈ t.cols then getCell r "heart_rate" else none
            cadence := if "cadence" ∈ t.cols then getCell r "cadence" else none
            power := getCell r "power" }) := by
    simp only [standardBranch, if_pos hp, if_pos ht]
    rw [filter_map_swap]
    congr 1
    apply List.filter_congr
    intro r hr
    simp [if_pos ht, hv r hr]
  have hdrop : dropnaTsPower (standardBranch pdt t) =
      Except.ok { standardBranch pdt t with
        rows := (standardBranch pdt t).rows.filter
          (fun r => r.timestamp.isSome && r.power.isSome) } := by
    have h1 : (standardBranch pdt t).hasTimestamp = true := by
      simp [standardBranch, if_pos hp, ht]
    have h2 : (standardBranch pdt t).hasPower = true := by
      simp [standardBranch, if_pos hp]
    simp [dropnaTsPower, h1, h2]
  constructor
  · simp [parse_file, hbody, hdrop]
  · simp [parse_file, hbody, hdrop, hrows]

/-- Witness for C2 (amended): on a concrete two-row table the row with a
missing power cell is dropped and the other kept in order. -/
theorem C2_standard_normalize_witness :
    "power" ∈ wTable.cols ∧ "timestamp" ∈ wTable.cols ∧
    is_shifted wTable = false ∧
    (∀ r ∈ wTable.rows, ((getCell r "timestamp").bind pdtEx).isSome = true) ∧
    ((parse_file pdtEx (some wTable)).1 = none ∧
      (parse_file pdtEx (some wTable)).2 =
        (wTable.rows.filter (fun r => (getCell r "power").isSome)).map (fun r =>
          { timestamp := (getCell r "timestamp").bind pdtEx
            heart_rate := if "heart_rate" ∈ wTable.cols then getCell r "heart_rate" else none
            cadence := if "cadence" ∈ wTable.cols then getCell r "cadence" else none
            power := getCell r "power" })) :=
  ⟨by decide, by decide, by decide, by decide,
    C2_standard_normalize pdtEx wTable (by decide) (by decide) (by decide)
      (by decide)⟩

theorem length_filterMap_all_some {α β : Type} (f : α → Option β) (l : List α)
    (h : ∀ x ∈ l, (f x).isSome = true) : (l.filterMap f).length = l.length := by
  induction l with
  | nil => rfl
  | cons a as ih =>
    rcases ha : f a with _ | b
    · exact absurd (h a (by simp)) (by simp [ha])
    · simp only [List.filterMap_cons, ha, List.length_cons]
      rw [ih (fun x hx => h x (by simp [hx]))]

theorem nanmean_all_some (l : List (Option ℚ))
    (h : ∀ x ∈ l, x.isSome = true) (hne : l ≠ []) :
    nanmean l = some ((l.filterMap id).sum / (l.length : ℚ)) := by
  have hlen : (l.filterMap id).length = l.length :=
    length_filterMap_all_some id l h
  have hne' : l.filterMap id ≠ [] := by
    intro h0
    rw [h0] at hlen
    exact hne (List.length_eq_zero.mp hlen.symm)
  simp only [nanmean]
  rw [if_neg (by simp only [List.isEmpty_iff]; exact hne'), hlen]

/-- C3: `calculate_metrics` returns absent iff filtering to power > 10
leaves no sample; in particular it is absent on the empty sequence and on
any series whose samples all have power ≤ 10. -/
theorem C3_absent_iff_no_active (df : List RideSample) :
    (calculate_metrics df = none ↔
      df.filter (fun s => decide (10 < s.power)) = []) ∧
    calculate_metrics ([] : List RideSample) = none ∧
    ((∀ s ∈ df, s.power ≤ 10) → calculate_metrics df = none) := by
  have hiff : calculate_metrics df = none ↔ activeOf df = [] := by
    constructor
    · intro h
      by_contra hne
      have hE : ¬((activeOf df).isEmpty = true) := by
        simp only [List.isEmpty_iff]
        exact hne
      simp only [calculate_metrics] at h
      rw [if_neg hE] at h
      exact Option.noConfusion h
    · intro h
      simp [calculate_metrics, h]
  refine ⟨hiff, rfl, ?_⟩
  intro h
  apply hiff.mpr
  apply List.filter_eq_nil_iff.mpr
  intro s hs
  simp only [decide_eq_true_eq]
  exact not_lt.mpr (h s hs)

/-- Witness for C3: a one-sample all-low-power ride gets no metrics. -/
theorem C3_absent_witness :
    (∀ s ∈ w3df, s.power ≤ 10) ∧ calculate_metrics w3df = none :=
  ⟨by decide, (C3_absent_iff_no_active w3df).2.2 (by decide)⟩

/-- C4: with at least one active sample, the duration is the unfiltered
sample count divided by 60 — for arbitrary timestamps, so it is not
derived from timestamp deltas — while average power, the normalized-power
proxy (square root of the mean of squared power), average heart rate and
average cadence are means over the active (power > 10) samples only. -/
theorem C4_metric_formulas (df : List RideSample)
    (hne : activeOf df ≠ [])
    (hhr : ∀ s ∈ activeOf df, s.heart_rate.isSome = true)
    (hcad : ∀ s ∈ activeOf df, s.cadence.isSome = true) :
    ∃ m, calculate_metrics df = some m ∧
      m.duration = (df.length : ℚ) / 60 ∧
      m.avg_pwr =
        ((activeOf df).map (fun s => s.power)).sum /
          ((activeOf df).length : ℚ) ∧
      Real.sqrt (m.norm_pwr_sq : ℝ) =
        Real.sqrt
          ((((activeOf df).map (fun s => s.power ^ 2)).sum /
            ((activeOf df).length : ℚ) : ℚ) : ℝ) ∧
      m.avg_hr =
        some (((activeOf df).filterMap (fun s => s.heart_rate)).sum /
          ((activeOf df).length : ℚ)) ∧
      m.avg_cad =
        some (((activeOf df).filterMap (fun s => s.cadence)).sum /
          ((activeOf df).length : ℚ)) := by
  have hE : ¬((activeOf df).isEmpty = true) := by
    simp only [List.isEmpty_iff]
    exact hne
  have hm : calculate_metrics df = some
      { duration := (df.length : ℚ) / 60
        avg_pwr := meanQ ((activeOf df).map (fun s => s.power))
        norm_pwr_sq := meanQ ((activeOf df).map (fun s => s.power ^ 2))
        avg_hr := nanmean ((activeOf df).map (fun s => s.heart_rate))
        avg_cad := nanmean ((activeOf df).map (fun s => s.cadence))
        ef := efOf (meanQ ((activeOf df).map (fun s => s.power)))
          (nanmean ((activeOf df).map (fun s => s.heart_rate)))
        decoupling := decouplingOf (activeOf df) } := by
    simp only [calculate_metrics]
    rw [if_neg hE]
  have hmapne : ∀ g : RideSample → Option ℚ,
      (activeOf df).map g ≠ [] := by
    intro g h0
    exact hne (List.map_eq_nil_iff.mp h0)
  refine ⟨_, hm, rfl, ?_, ?_, ?_, ?_⟩
  · simp [meanQ, List.length_map]
  · simp [meanQ, List.length_map]
  · show nanmean ((activeOf df).map (fun s => s.heart_rate)) = _
    rw [nanmean_all_some _ (by simpa using hhr) (hmapne _)]
    simp [List.filterMap_map, List.length_map, Function.id_comp]
  · show nanmean ((activeOf df).map (fun s => s.cadence)) = _
    rw [nanmean_all_some _ (by simpa using hcad) (hmapne _)]
    simp [List.filterMap_map, List.length_map, Function.id_comp]

/-- Witness for C4 at a two-sample ride with one active sample. -/
theorem C4_metric_formulas_witness :
    activeOf w4df ≠ [] ∧
    (∀ s ∈ activeOf w4df, s.heart_rate.isSome = true) ∧
    (∀ s ∈ activeOf w4df, s.cadence.isSome = true) ∧
    (∃ m, calculate_metrics w4df = some m ∧
      m.duration = (w4df.length : ℚ) / 60 ∧
      m.avg_pwr =
        ((activeOf w4df).map (fun s => s.power)).sum /
          ((activeOf w4df).length : ℚ) ∧
      Real.sqrt (m.norm_pwr_sq : ℝ) =
        Real.sqrt
          ((((activeOf w4df).map (fun s => s.power ^ 2)).sum /
            ((activeOf w4df).length : ℚ) : ℚ) : ℝ) ∧
      m.avg_hr =
        some (((activeOf w4df).filterMap (fun s => s.heart_rate)).sum /
          ((activeOf w4df).length : ℚ)) ∧
      m.avg_cad =
        some (((activeOf w4df).filterMap (fun s => s.cadence)).sum /
          ((activeOf w4df).length : ℚ))) :=
  ⟨by decide, by decide, by decide,
    C4_metric_formulas w4df (by decide) (by decide) (by decide)⟩

theorem meanQ_const (l : List ℚ) (c : ℚ) (h : ∀ x ∈ l, x = c) (hne : l ≠ []) :
    meanQ l = c := by
  have hlen : (l.length : ℚ) ≠ 0 :=
    Nat.cast_ne_zero.mpr (List.length_pos.mpr hne).ne'
  rw [meanQ, List.sum_eq_card_nsmul l c h, nsmul_eq_mul,
    mul_div_cancel_left₀ _ hlen]

theorem filterMap_id_const (l : List (Option ℚ)) (c : ℚ)
    (h : ∀ x ∈ l, x = some c) :
    l.filterMap id = List.replicate l.length c := by
  induction l with
  | nil => rfl
  | cons a as ih =>
    have ha : a = some c := h a (by simp)
    subst ha
    simp only [List.filterMap_cons, id, List.length_cons, List.replicate_succ]
    rw [ih (fun x hx => h x (by simp [hx]))]

theorem nanmean_const (l : List (Option ℚ)) (c : ℚ)
    (h : ∀ x ∈ l, x = some c) (hne : l ≠ []) : nanmean l = some c := by
  have hall : ∀ x ∈ l, x.isSome = true := fun x hx => by simp [h x hx]
  have hlen : (l.length : ℚ) ≠ 0 :=
    Nat.cast_ne_zero.mpr (List.length_pos.mpr hne).ne'
  rw [nanmean_all_some l hall hne, filterMap_id_const l c h]
  rw [List.sum_replicate, nsmul_eq_mul, mul_div_cancel_left₀ _ hlen]

theorem decouplingOf_empty_half (l : List RideSample)
    (h : l.take (l.length / 2) = [] ∨ l.drop (l.length / 2) = []) :
    decouplingOf l = some 0 := by
  simp only [decouplingOf]
  rcases h with h | h <;> rw [h] <;> simp

theorem decouplingOf_const (l : List RideSample) (p hr0 : ℚ)
    (hall : ∀ s ∈ l, s.power = p ∧ s.heart_rate = some hr0)
    (hp : 10 < p) (hh : 0 < hr0) :
    decouplingOf l = some 0 := by
  by_cases h1e : l.take (l.length / 2) = []
  · exact decouplingOf_empty_half l (Or.inl h1e)
  by_cases h2e : l.drop (l.length / 2) = []
  · exact decouplingOf_empty_half l (Or.inr h2e)
  have hall1 : ∀ s ∈ l.take (l.length / 2), s.power = p ∧ s.heart_rate = some hr0 :=
    fun s hs => hall s (List.take_subset _ _ hs)
  have hall2 : ∀ s ∈ l.drop (l.length / 2), s.power = p ∧ s.heart_rate = some hr0 :=
    fun s hs => hall s (List.drop_subset _ _ hs)
  have hm1 : nanmean ((l.take (l.length / 2)).map (fun s => s.heart_rate)) =
      some hr0 := by
    apply nanmean_const
    · intro x hx
      rcases List.mem_map.mp hx with ⟨s, hs, rfl⟩
      exact (hall1 s hs).2
    · intro h0
      exact h1e (List.map_eq_nil_iff.mp h0)
  have hm2 : nanmean ((l.drop (l.length / 2)).map (fun s => s.heart_rate)) =
      some hr0 := by
    apply nanmean_const
    · intro x hx
      rcases List.mem_map.mp hx with ⟨s, hs, rfl⟩
      exact (hall2 s hs).2
    · intro h0
      exact h2e (List.map_eq_nil_iff.mp h0)
  have hp1 : meanQ ((l.take (l.length / 2)).map (fun s => s.power)) = p := by
    apply meanQ_const
    · intro x hx
      rcases List.mem_map.mp hx with ⟨s, hs, rfl⟩
      exact (hall1 s hs).1
    · intro h0
      exact h1e (List.map_eq_nil_iff.mp h0)
  have hp2 : meanQ ((l.drop (l.length / 2)).map (fun s => s.power)) = p := by
    apply meanQ_const
    · intro x hx
      rcases List.mem_map.mp hx with ⟨s, hs, rfl⟩
      exact (hall2 s hs).1
    · intro h0
      exact h2e (List.map_eq_nil_iff.mp h0)
  have hef : p / hr0 ≠ 0 :=
    div_ne_zero (by linarith) hh.ne'
  simp only [decouplingOf, hm1, hm2, hp1, hp2]
  rw [if_pos ⟨List.length_pos.mpr h1e, List.length_pos.mpr h2e⟩,
    if_neg (by simp [hh.ne']), if_neg hef]
  simp

theorem calculate_metrics_of_active (df : List RideSample)
    (hne : activeOf df ≠ []) :
    calculate_metrics df = some
      { duration := (df.length : ℚ) / 60
        avg_pwr := meanQ ((activeOf df).map (fun s => s.power))
        norm_pwr_sq := meanQ ((activeOf df).map (fun s => s.power ^ 2))
        avg_hr := nanmean ((activeOf df).map (fun s => s.heart_rate))
        avg_cad := nanmean ((activeOf df).map (fun s => s.cadence))
        ef := efOf (meanQ ((activeOf df).map (fun s => s.power)))
          (nanmean ((activeOf df).map (fun s => s.heart_rate)))
        decoupling := decouplingOf (activeOf df) } := by
  have hE : ¬((activeOf df).isEmpty = true) := by
    simp only [List.isEmpty_iff]
    exact hne
  simp only [calculate_metrics]
  rw [if_neg hE]

/-- C7: on a perfectly steady ride — constant power above the active
threshold and constant positive heart rate throughout — the decoupling is
exactly 0, and it is also 0 whenever the midpoint split leaves either
half of the active samples empty. -/
theorem C7_steady_decoupling (df : List RideSample)
    (hne : activeOf df ≠ [])
    (hcase :
      (∃ p h : ℚ, 10 < p ∧ 0 < h ∧
        ∀ s ∈ df, s.power = p ∧ s.heart_rate = some h) ∨
      (activeOf df).take ((activeOf df).length / 2) = [] ∨
      (activeOf df).drop ((activeOf df).length / 2) = []) :
    ∃ m, calculate_metrics df = some m ∧ m.decoupling = some 0 := by
  refine ⟨_, calculate_metrics_of_active df hne, ?_⟩
  show decouplingOf (activeOf df) = some 0
  rcases hcase with ⟨p, h, hp, hh, hall⟩ | hhalf
  · exact decouplingOf_const _ p h
      (fun s hs => hall s (List.mem_of_mem_filter hs)) hp hh
  · exact decouplingOf_empty_half _ hhalf

/-- Witness for C7 at a steady two-sample ride. -/
theorem C7_steady_decoupling_witness :
    activeOf w7df ≠ [] ∧
    (∃ p h : ℚ, 10 < p ∧ 0 < h ∧
      ∀ s ∈ w7df, s.power = p ∧ s.heart_rate = some h) ∧
    ∃ m, calculate_metrics w7df = some m ∧ m.decoupling = some 0 :=
  ⟨by decide, ⟨150, 100, by decide, by decide, by decide⟩,
    C7_steady_decoupling w7df (by decide)
      (Or.inl ⟨150, 100, by decide, by decide, by decide⟩)⟩

set_option maxRecDepth 8000 in
/-- C6: on 120 one-per-second samples, the first 60 at power 150 / heart
rate 140 and the last 60 at power 150 / heart rate 150,
`calculate_metrics` gives average power 150, duration 2 minutes and
decoupling `(150/140 − 1)/(150/140) · 100` (≈ 6.67 %). -/
theorem C6_example_ride :
    ∃ m, calculate_metrics c6Samples = some m ∧
      m.avg_pwr = 150 ∧ m.duration = 2 ∧
      m.decoupling = some ((150 / 140 - 1) / (150 / 140) * 100) := by
  have hmemc : ∀ s ∈ c6Samples, s.power = 150 := by
    intro s hs
    simp only [c6Samples, List.mem_append, List.mem_map, List.mem_range] at hs
    rcases hs with ⟨i, -, rfl⟩ | ⟨i, -, rfl⟩ <;> rfl
  have hact : activeOf c6Samples = c6Samples := by
    apply List.filter_eq_self.mpr
    intro s hs
    rw [decide_eq_true_eq, hmemc s hs]
    norm_num
  have hlen : c6Samples.length = 120 := by simp [c6Samples]
  have hne : c6Samples ≠ [] := by
    intro h0
    rw [h0] at hlen
    exact absurd hlen (by decide)
  have hmid : c6Samples.length / 2 = 60 := by rw [hlen]
  have htake : c6Samples.take 60 =
      (List.range 60).map (fun (i : ℕ) =>
        ({ timestamp := (i : ℚ), heart_rate := some 140, cadence := none,
           power := 150 } : RideSample)) := by
    simp only [c6Samples]
    exact List.take_left' (by simp)
  have hdrop : c6Samples.drop 60 =
      (List.range 60).map (fun (i : ℕ) =>
        ({ timestamp := ((60 + i : ℕ) : ℚ), heart_rate := some 150, cadence := none,
           power := 150 } : RideSample)) := by
    simp only [c6Samples]
    exact List.drop_left' (by simp)
  have hmapne : ∀ (g : ℕ → RideSample) (f : RideSample → ℚ),
      ((List.range 60).map g).map f ≠ [] := by
    intro g f
    simp
  have hmapne' : ∀ (g : ℕ → RideSample) (f : RideSample → Option ℚ),
      ((List.range 60).map g).map f ≠ [] := by
    intro g f
    simp
  have hm1 : nanmean ((c6Samples.take 60).map (fun s => s.heart_rate)) =
      some 140 := by
    rw [htake]
    apply nanmean_const _ _ ?_ (hmapne' _ _)
    intro x hx
    rcases List.mem_map.mp hx with ⟨s, hs, rfl⟩
    rcases List.mem_map.mp hs with ⟨i, -, rfl⟩
    rfl
  have hm2 : nanmean ((c6Samples.drop 60).map (fun s => s.heart_rate)) =
      some 150 := by
    rw [hdrop]
    apply nanmean_const _ _ ?_ (hmapne' _ _)
    intro x hx
    rcases List.mem_map.mp hx with ⟨s, hs, rfl⟩
    rcases List.mem_map.mp hs with ⟨i, -, rfl⟩
    rfl
  have hp1 : meanQ ((c6Samples.take 60).map (fun s => s.power)) = 150 := by
    rw [htake]
    apply meanQ_const _ _ ?_ (hmapne _ _)
    intro x hx
    rcases List.mem_map.mp hx with ⟨s, hs, rfl⟩
    rcases List.mem_map.mp hs with ⟨i, -, rfl⟩
    rfl
  have hp2 : meanQ ((c6Samples.drop 60).map (fun s => s.power)) = 150 := by
    rw [hdrop]
    apply meanQ_const _ _ ?_ (hmapne _ _)
    intro x hx
    rcases List.mem_map.mp hx with ⟨s, hs, rfl⟩
    rcases List.mem_map.mp hs with ⟨i, -, rfl⟩
    rfl
  have hlentake : 0 < (c6Samples.take 60).length := by
    rw [htake]
    simp
  have hlendrop : 0 < (c6Samples.drop 60).length := by
    rw [hdrop]
    simp
  have hdec : decouplingOf c6Samples =
      some ((150 / 140 - 150 / 150) / (150 / 140) * 100) := by
    simp only [decouplingOf, hmid, hm1, hm2, hp1, hp2]
    rw [if_pos ⟨hlentake, hlendrop⟩,
      if_neg (by norm_num : ¬((140 : ℚ) = 0 ∨ (150 : ℚ) = 0)),
      if_neg (by norm_num : ¬(150 / 140 : ℚ) = 0)]
  have hmQ : meanQ ((activeOf c6Samples).map (fun s => s.power)) = 150 := by
    rw [hact]
    apply meanQ_const
    · intro x hx
      rcases List.mem_map.mp hx with ⟨s, hs, rfl⟩
      exact hmemc s hs
    · intro h0
      exact hne (List.map_eq_nil_iff.mp h0)
  refine ⟨_, calculate_metrics_of_active c6Samples (by rw [hact]; exact hne),
    ?_, ?_, ?_⟩
  · exact hmQ
  · show (c6Samples.length : ℚ) / 60 = 2
    rw [hlen]
    norm_num
  · show decouplingOf (activeOf c6Samples) = _
    rw [hact, hdec]
    norm_num

theorem powerMsgs_all (p : ℚ) : ∀ x ∈ powerMsgs p, isPowerMsg x = true := by
  simp only [powerMsgs]
  split_ifs <;> simp [isPowerMsg]

theorem cadenceMsgs_all (c : Option ℚ) :
    ∀ x ∈ cadenceMsgs c, isCadenceMsg x = true := by
  rcases c with _ | x
  · simp [cadenceMsgs]
  · simp only [cadenceMsgs]
    split_ifs <;> simp [isCadenceMsg]

theorem decouplingMsgs_single (d : Option ℚ) :
    ∃ x, decouplingMsgs d = [x] ∧ isDecouplingMsg x = true := by
  rcases d with _ | x
  · exact ⟨Msg.driftAlert, rfl, rfl⟩
  · simp only [decouplingMsgs]
    split_ifs <;> exact ⟨_, rfl, rfl⟩

theorem powerMsgs_cases (p : ℚ) :
    powerMsgs p = [] ∨ ∃ x, powerMsgs p = [x] ∧ isPowerMsg x = true := by
  simp only [powerMsgs]
  split_ifs <;> first
    | exact Or.inl rfl
    | exact Or.inr ⟨_, rfl, rfl⟩

theorem cadenceMsgs_cases (c : Option ℚ) :
    cadenceMsgs c = [] ∨ ∃ x, cadenceMsgs c = [x] ∧ isCadenceMsg x = true := by
  rcases c with _ | x
  · exact Or.inl rfl
  · simp only [cadenceMsgs]
    split_ifs <;> first
      | exact Or.inl rfl
      | exact Or.inr ⟨_, rfl, rfl⟩

theorem msgCat_of_power (x : Msg) (h : isPowerMsg x = true) :
    isDecouplingMsg x = false ∧ isCadenceMsg x = false := by
  cases x <;> simp_all [isPowerMsg, isDecouplingMsg, isCadenceMsg]

theorem msgCat_of_decoup (x : Msg) (h : isDecouplingMsg x = true) :
    isPowerMsg x = false ∧ isCadenceMsg x = false := by
  cases x <;> simp_all [isPowerMsg, isDecouplingMsg, isCadenceMsg]

theorem msgCat_of_cad (x : Msg) (h : isCadenceMsg x = true) :
    isPowerMsg x = false ∧ isDecouplingMsg x = false := by
  cases x <;> simp_all [isPowerMsg, isDecouplingMsg, isCadenceMsg]

theorem mem_feedback_decoup (m : RideMetrics) (x : Msg)
    (hxp : isPowerMsg x = false) (hxc : isCadenceMsg x = false) :
    x ∈ generate_coach_feedback m ↔ x ∈ decouplingMsgs m.decoupling := by
  simp only [generate_coach_feedback, List.mem_append]
  constructor
  · intro h
    rcases h with (h | h) | h
    · exact absurd (powerMsgs_all _ x h) (by simp [hxp])
    · exact h
    · exact absurd (cadenceMsgs_all _ x h) (by simp [hxc])
  · intro h
    exact Or.inl (Or.inr h)

/-- C5: the feedback contains the Excellent-efficiency message exactly
when decoupling < 3, the Good-efficiency message exactly when
3 ≤ decoupling < 5, and the Drift-alert message exactly when
decoupling ≥ 5 (the boundary value 5 gives the drift alert). -/
theorem C5_decoupling_rules (m : RideMetrics) (d : ℚ)
    (hd : m.decoupling = some d) :
    (Msg.excellentEfficiency ∈ generate_coach_feedback m ↔ d < 3) ∧
    (Msg.goodEfficiency ∈ generate_coach_feedback m ↔ 3 ≤ d ∧ d < 5) ∧
    (Msg.driftAlert ∈ generate_coach_feedback m ↔ 5 ≤ d) := by
  refine ⟨?_, ?_, ?_⟩
  · rw [mem_feedback_decoup m Msg.excellentEfficiency rfl rfl, hd]
    simp only [decouplingMsgs]
    split_ifs with h1 h2
    · simp [h1]
    · simp only [List.mem_singleton]
      constructor
      · intro h
        exact absurd h (by simp)
      · intro h
        exact absurd h h1
    · simp only [List.mem_singleton]
      constructor
      · intro h
        exact absurd h (by simp)
      · intro h
        exact absurd h h1
  · rw [mem_feedback_decoup m Msg.goodEfficiency rfl rfl, hd]
    simp only [decouplingMsgs]
    split_ifs with h1 h2
    · simp only [List.mem_singleton]
      constructor
      · intro h
        exact absurd h (by simp)
      · rintro ⟨h3, -⟩
        linarith
    · simp only [List.mem_singleton, true_iff]
      exact ⟨not_lt.mp h1, h2⟩
    · simp only [List.mem_singleton]
      constructor
      · intro h
        exact absurd h (by simp)
      · rintro ⟨-, h5⟩
        exact absurd h5 h2
  · rw [mem_feedback_decoup m Msg.driftAlert rfl rfl, hd]
    simp only [decouplingMsgs]
    split_ifs with h1 h2
    · simp only [List.mem_singleton]
      constructor
      · intro h
        exact absurd h (by simp)
      · intro h
        linarith
    · simp only [List.mem_singleton]
      constructor
      · intro h
        exact absurd h (by simp)
      · intro h
        linarith
    · simp only [List.mem_singleton, true_iff]
      exact not_lt.mp h2

/-- Witness for C5 at a metrics record with decoupling 4. -/
theorem C5_decoupling_rules_witness :
    wm5.decoupling = some 4 ∧
    ((Msg.excellentEfficiency ∈ generate_coach_feedback wm5 ↔ (4 : ℚ) < 3) ∧
     (Msg.goodEfficiency ∈ generate_coach_feedback wm5 ↔
        (3 : ℚ) ≤ 4 ∧ (4 : ℚ) < 5) ∧
     (Msg.driftAlert ∈ generate_coach_feedback wm5 ↔ (5 : ℚ) ≤ 4)) :=
  ⟨rfl, C5_decoupling_rules wm5 4 rfl⟩

/-- C8: a metrics record with average power 130, decoupling 2 and average
cadence 95 produces exactly the Sweet-spot-Z2, Excellent-efficiency and
Good-cadence messages, in that order. -/
theorem C8_feedback_example (m : RideMetrics)
    (hp : m.avg_pwr = 130) (hd : m.decoupling = some 2)
    (hc : m.avg_cad = some 95) :
    generate_coach_feedback m =
      [Msg.sweetSpotZ2, Msg.excellentEfficiency, Msg.goodCadence] := by
  simp only [generate_coach_feedback, hp, hd, hc, powerMsgs, decouplingMsgs,
    cadenceMsgs]
  rw [if_neg (by norm_num : ¬(130 : ℚ) < 115),
    if_pos (by norm_num : (125 : ℚ) ≤ 130 ∧ (130 : ℚ) ≤ 140),
    if_pos (by norm_num : (2 : ℚ) < 3),
    if_neg (by norm_num : ¬(95 : ℚ) < 85),
    if_pos (by norm_num : (90 : ℚ) < 95)]
  rfl

/-- Witness for C8 at a concrete metrics record. -/
theorem C8_feedback_example_witness :
    wm8.avg_pwr = 130 ∧ wm8.decoupling = some 2 ∧ wm8.avg_cad = some 95 ∧
    generate_coach_feedback wm8 =
      [Msg.sweetSpotZ2, Msg.excellentEfficiency, Msg.goodCadence] :=
  ⟨rfl, rfl, rfl, C8_feedback_example wm8 rfl rfl rfl⟩

/-- C10: for every metrics record the feedback has exactly one decoupling
message (the three decoupling branches are exhaustive), at most one power
message, at most one cadence message, and its length is between 1
and 3. -/
theorem C10_feedback_shape (m : RideMetrics) :
    (generate_coach_feedback m).countP isDecouplingMsg = 1 ∧
    (generate_coach_feedback m).countP isPowerMsg ≤ 1 ∧
    (generate_coach_feedback m).countP isCadenceMsg ≤ 1 ∧
    1 ≤ (generate_coach_feedback m).length ∧
    (generate_coach_feedback m).length ≤ 3 := by
  obtain ⟨xd, hxd, hxdc⟩ := decouplingMsgs_single m.decoupling
  obtain ⟨hxdp, hxdcad⟩ := msgCat_of_decoup xd hxdc
  rcases powerMsgs_cases m.avg_pwr with hp | ⟨xp, hp, hxpc⟩ <;>
    rcases cadenceMsgs_cases m.avg_cad with hc | ⟨xc, hc, hxcc⟩
  · refine ⟨?_, ?_, ?_, ?_, ?_⟩ <;>
      simp [generate_coach_feedback, hp, hc, hxd, List.countP_cons, hxdc,
        hxdp, hxdcad]
  · obtain ⟨hxcp, hxcd⟩ := msgCat_of_cad xc hxcc
    refine ⟨?_, ?_, ?_, ?_, ?_⟩ <;>
      simp [generate_coach_feedback, hp, hc, hxd, List.countP_cons,
        List.countP_append, hxdc, hxdp, hxdcad, hxcc, hxcp, hxcd]
  · obtain ⟨hxpd, hxpcad⟩ := msgCat_of_power xp hxpc
    refine ⟨?_, ?_, ?_, ?_, ?_⟩ <;>
      simp [generate_coach_feedback, hp, hc, hxd, List.countP_cons,
        List.countP_append, hxdc, hxdp, hxdcad, hxpc, hxpd, hxpcad]
  · obtain ⟨hxpd, hxpcad⟩ := msgCat_of_power xp hxpc
    obtain ⟨hxcp, hxcd⟩ := msgCat_of_cad xc hxcc
    refine ⟨?_, ?_, ?_, ?_, ?_⟩ <;>
      simp [generate_coach_feedback, hp, hc, hxd, List.countP_cons,
        List.countP_append, hxdc, hxdp, hxdcad, hxpc, hxpd, hxpcad, hxcc,
        hxcp, hxcd]

end CycleCoach
